import Mathlib

/-!
Shallow embedding of the reth-cdk batch-ingestion and finality pipeline.

Each definition mirrors one item of the Rust source (crates `cdk-finality`,
`cdk-engine-facade`, `cdk-ingest`, `cdk-datastream`, `cdk-binaries`).
Machine integers (`u32`, `u64`, `U256`) are modelled as `Nat`; the places
where overflow or truncation matters (`as u32` casts, `u64` subtraction)
are made explicit with `% 2^32` and checked arithmetic, matching the
behaviour of checked (debug) Rust builds where overflow panics.
`HashMap<u64, V>` is modelled as a key-unique association list.
`String` payloads of `format!` error messages are modelled as structured
constructors carrying the same data, one constructor per distinct message
template in the source.
-/

namespace RethCdk

/-- Decidable equality for `Except`, used to evaluate the model on
concrete inputs. -/
instance instDecidableEqExcept {ε α : Type} [DecidableEq ε] [DecidableEq α] :
    DecidableEq (Except ε α) := fun x y =>
  match x, y with
  | .error e, .error f =>
      if h : e = f then isTrue (by rw [h])
      else isFalse (fun c => h (by injection c))
  | .ok a, .ok b =>
      if h : a = b then isTrue (by rw [h])
      else isFalse (fun c => h (by injection c))
  | .error _, .ok _ => isFalse (fun c => Except.noConfusion c)
  | .ok _, .error _ => isFalse (fun c => Except.noConfusion c)

/-! ### Association-list model of `HashMap<u64, V>` -/

/-- `HashMap::get`. -/
def lookupA {α : Type} (l : List (Nat × α)) (k : Nat) : Option α :=
  match l with
  | [] => none
  | (k', v) :: rest => if k' = k then some v else lookupA rest k

/-- `HashMap::remove` (key-unique lists: drop every pair at the key). -/
def eraseA {α : Type} (k : Nat) (l : List (Nat × α)) : List (Nat × α) :=
  l.filter (fun p => p.1 ≠ k)

/-- `HashMap::insert` (overwrites any existing entry at the key). -/
def insertA {α : Type} (k : Nat) (v : α) (l : List (Nat × α)) : List (Nat × α) :=
  (k, v) :: eraseA k l

/-- `HashMap::contains_key`. -/
def containsA {α : Type} (l : List (Nat × α)) (k : Nat) : Bool :=
  (lookupA l k).isSome

/-! ### `cdk-types/src/finality.rs` -/

/-- `FinalityStatus`: finality status of a batch. -/
inductive FinalityStatus where
  | Pending
  | Finalized
  | RolledBack
  deriving Repr, DecidableEq

/-- `FinalityTag`: finality status of a batch as determined by L1.
`U256` ids and `FixedBytes<32>` hashes are modelled as `Nat`. -/
structure FinalityTag where
  batch_id : Nat
  l1_block : Nat
  l1_block_hash : Nat
  status : FinalityStatus
  timestamp : Nat
  tx_hash : Option Nat
  deriving Repr, DecidableEq

/-! ### `cdk-finality/src/oracle.rs` events -/

/-- `FinalityEventType`. -/
inductive FinalityEventType where
  | Finalized
  | RolledBack
  | StatusChanged
  deriving Repr, DecidableEq

/-- `FinalityUpdate`: an event produced by the finality oracle. -/
structure FinalityUpdate where
  tag : FinalityTag
  event_type : FinalityEventType
  l1_block_number : Nat
  tx_hash : Option Nat
  detected_at : Nat
  deriving Repr, DecidableEq

/-! ### `cdk-finality/src/rollback.rs` -/

/-- `RollbackRecord`: an executed rollback in the history. -/
structure RollbackRecord where
  batch_id : Nat
  batch_hash : Nat
  l1_block_number : Nat
  tx_hash : Option Nat
  timestamp : Nat
  reason : String
  affected_blocks : List Nat
  deriving Repr, DecidableEq

/-- `PendingRollback`: a rollback awaiting confirmations. -/
structure PendingRollback where
  batch_id : Nat
  batch_hash : Nat
  l1_block_number : Nat
  tx_hash : Option Nat
  timestamp : Nat
  confirmations : Nat
  required_confirmations : Nat
  deriving Repr, DecidableEq

/-- `RollbackConfig` (`rollback_timeout` in seconds). -/
structure RollbackConfig where
  required_confirmations : Nat
  max_rollback_depth : Nat
  rollback_timeout : Nat
  auto_execute : Bool
  validate_rollbacks : Bool
  deriving Repr, DecidableEq

/-- `RollbackConfig::default`. -/
def RollbackConfig.default : RollbackConfig :=
  { required_confirmations := 12
    max_rollback_depth := 1000
    rollback_timeout := 3600
    auto_execute := true
    validate_rollbacks := true }

/-- `RollbackAction`. -/
inductive RollbackAction where
  | ExecuteRollback (batch_id : Nat)
  | PendingRollback (batch_id : Nat)
  | Finalized (batch_id : Nat)
  | StatusChanged (batch_id : Nat)
  deriving Repr, DecidableEq

/-- `FinalityError` (only the variant the rollback manager produces). -/
inductive FinalityError where
  | RollbackError (msg : String)
  deriving Repr, DecidableEq

/-- The mutable fields of `RollbackManager`. -/
structure RollbackState where
  rollback_history : List (Nat × RollbackRecord)
  pending_rollbacks : List (Nat × PendingRollback)
  config : RollbackConfig
  deriving Repr, DecidableEq

/-- `RollbackManager::new`. -/
def RollbackManager.new (config : RollbackConfig) : RollbackState :=
  { rollback_history := [], pending_rollbacks := [], config := config }

/-- `RollbackManager::calculate_affected_blocks` (placeholder in source:
returns `[batch_id*100, batch_id*100+1, batch_id*100+2]`, never errors). -/
def calculate_affected_blocks (batch_id : Nat) : List Nat :=
  [batch_id * 100, batch_id * 100 + 1, batch_id * 100 + 2]

/-- `RollbackManager::check_rollback_confirmations`: bumps the pending
entry's confirmation count and reports whether it reached the requirement.
The source returns `FinalityResult<bool>` but never errors. -/
def check_rollback_confirmations (s : RollbackState) (batch_id : Nat) :
    RollbackState × Bool :=
  match lookupA s.pending_rollbacks batch_id with
  | none => (s, false)
  | some pending =>
      let pending' := { pending with confirmations := pending.confirmations + 1 }
      let s' := { s with pending_rollbacks := insertA batch_id pending' s.pending_rollbacks }
      (s', decide (pending'.required_confirmations ≤ pending'.confirmations))

/-- `RollbackManager::execute_rollback`: moves the pending entry into the
rollback history and emits `ExecuteRollback`. -/
def execute_rollback (s : RollbackState) (batch_id : Nat) :
    RollbackState × Except FinalityError (List RollbackAction) :=
  match lookupA s.pending_rollbacks batch_id with
  | none =>
      (s, .error (.RollbackError "No pending rollback for batch"))
  | some pending =>
      let s1 := { s with pending_rollbacks := eraseA batch_id s.pending_rollbacks }
      let record : RollbackRecord :=
        { batch_id := batch_id
          batch_hash := pending.batch_hash
          l1_block_number := pending.l1_block_number
          tx_hash := pending.tx_hash
          timestamp := pending.timestamp
          reason := "L1 finality rollback"
          affected_blocks := calculate_affected_blocks batch_id }
      let s2 := { s1 with rollback_history := insertA batch_id record s1.rollback_history }
      (s2, .ok [RollbackAction.ExecuteRollback batch_id])

/-- `RollbackManager::handle_rollback`: ignores batches already in the
rollback history; otherwise inserts a fresh pending entry with
`confirmations = 0`, and under `auto_execute` bumps once and executes
when the requirement is met. -/
def handle_rollback (s : RollbackState) (u : FinalityUpdate) :
    RollbackState × Except FinalityError (List RollbackAction) :=
  let batch_id := u.tag.batch_id
  if containsA s.rollback_history batch_id then
    (s, .ok [])
  else
    let pending_rollback : PendingRollback :=
      { batch_id := batch_id
        batch_hash := u.tag.l1_block_hash
        l1_block_number := u.l1_block_number
        tx_hash := u.tx_hash
        timestamp := u.detected_at
        confirmations := 0
        required_confirmations := s.config.required_confirmations }
    let s1 := { s with pending_rollbacks := insertA batch_id pending_rollback s.pending_rollbacks }
    if s1.config.auto_execute then
      let (s2, enough) := check_rollback_confirmations s1 batch_id
      if enough then
        execute_rollback s2 batch_id
      else
        (s2, .ok [RollbackAction.PendingRollback batch_id])
    else
      (s1, .ok [RollbackAction.PendingRollback batch_id])

/-- `RollbackManager::handle_finalization`: removes any pending rollback
for the batch and emits `Finalized`. -/
def handle_finalization (s : RollbackState) (u : FinalityUpdate) :
    RollbackState × Except FinalityError (List RollbackAction) :=
  let batch_id := u.tag.batch_id
  let s1 := { s with pending_rollbacks := eraseA batch_id s.pending_rollbacks }
  (s1, .ok [RollbackAction.Finalized batch_id])

/-- `RollbackManager::handle_status_change`. -/
def handle_status_change (s : RollbackState) (u : FinalityUpdate) :
    RollbackState × Except FinalityError (List RollbackAction) :=
  (s, .ok [RollbackAction.StatusChanged u.tag.batch_id])

/-- `RollbackManager::process_finality_update`: dispatch on the event type. -/
def process_finality_update (s : RollbackState) (u : FinalityUpdate) :
    RollbackState × Except FinalityError (List RollbackAction) :=
  match u.event_type with
  | .RolledBack => handle_rollback s u
  | .Finalized => handle_finalization s u
  | .StatusChanged => handle_status_change s u

/-- Process a sequence of finality updates (one per poll tick), collecting
the per-tick results. -/
def process_updates (s : RollbackState) (us : List FinalityUpdate) :
    RollbackState × List (Except FinalityError (List RollbackAction)) :=
  match us with
  | [] => (s, [])
  | u :: rest =>
      let (s1, r) := process_finality_update s u
      let (s2, rs) := process_updates s1 rest
      (s2, r :: rs)

/-! ### `cdk-engine-facade/src/finality.rs` and `engine.rs` -/

/-- `FinalityResult` (the struct from `cdk-engine-facade/src/types.rs`,
not the `Result` alias of `cdk-finality`). -/
structure EngineFinalityResult where
  final_block : Nat
  blocks_affected : Nat
  deriving Repr, DecidableEq

/-- Instrumentation of the engine calls a finality-manager method performs:
`mark_final` and `EngineFacade::rollback_to`. -/
inductive EngineCall where
  | markFinal (block_number : Nat)
  | rollbackTo (block_number : Nat)
  deriving Repr, DecidableEq

/-- `DefaultFinalityManager::mark_final` (source stub: returns
`{final_block: block_number, blocks_affected: 1}`). -/
def mark_final (block_number : Nat) : EngineFinalityResult :=
  { final_block := block_number, blocks_affected := 1 }

/-- `DefaultFinalityManager::process_finality_tag`, paired with the trace of
engine calls it performs. The `Finalized` arm calls `mark_final`; the
`RolledBack` arm is a TODO stub in the source that performs no engine call
and returns `blocks_affected = 0`; the `Pending` arm performs no action. -/
def process_finality_tag (tag : FinalityTag) :
    EngineFinalityResult × List EngineCall :=
  match tag.status with
  | .Finalized => (mark_final tag.batch_id, [EngineCall.markFinal tag.batch_id])
  | .RolledBack => ({ final_block := tag.batch_id, blocks_affected := 0 }, [])
  | .Pending => ({ final_block := tag.batch_id, blocks_affected := 0 }, [])

/-! ### `cdk-types/src/batch.rs` -/

/-- `ProofMetadata` (`Bytes` as `List Nat`, fixed-size bytes as `Nat`). -/
structure ProofMetadata where
  data_proof : List Nat
  namespace_id : Nat
  commitment : Nat
  inclusion_proof : List Nat
  deriving Repr, DecidableEq

/-- `BlockInBatch`. -/
structure BlockInBatch where
  batch_index : Nat
  hash : Nat
  number : Nat
  parent_hash : Nat
  state_root : Nat
  tx_root : Nat
  receipt_root : Nat
  timestamp : Nat
  deriving Repr, DecidableEq

/-- `BatchId`. -/
structure BatchId where
  number : Nat
  hash : Nat
  deriving Repr, DecidableEq

/-- `Batch`. -/
structure Batch where
  id : BatchId
  l1_origin : Nat
  l1_origin_hash : Nat
  blocks : List BlockInBatch
  proof_meta : ProofMetadata
  timestamp : Nat
  deriving Repr, DecidableEq

/-! ### `cdk-ingest/src/validator.rs` -/

/-- The distinct `format!` message templates inside
`IngestError::InvalidBatchData`, one constructor per template, carrying
the same data the message interpolates. -/
inductive BatchDataReason where
  | batchIdZero
  | l1OriginZero
  | tooManyBlocks (got limit : Nat)
  | batchTooLarge (size limit : Nat)
  | indexMismatch (expected got : Nat)
  | blockNumberZero
  | blockHashZero
  | parentHashZero
  | stateRootZero
  | receiptRootZero
  | txRootZero
  | timestampZero
  | numbersNotInOrder (cur prev : Nat)
  | timestampsNotInOrder (cur prev : Nat)
  deriving Repr, DecidableEq

/-- `IngestError` (only the variant `validate_batch` produces). -/
inductive IngestError where
  | InvalidBatchData (reason : BatchDataReason)
  deriving Repr, DecidableEq

/-- Whether a reason is the `"Batch too large"` message. -/
def BatchDataReason.isSize : BatchDataReason → Bool
  | .batchTooLarge _ _ => true
  | _ => false

/-- `BatchValidator` fields. -/
structure BatchValidator where
  max_blocks_per_batch : Nat
  max_batch_size_bytes : Nat
  strict_mode : Bool
  deriving Repr, DecidableEq

/-- `BatchValidator::default`. -/
def BatchValidator.default : BatchValidator :=
  { max_blocks_per_batch := 1000
    max_batch_size_bytes := 10 * 1024 * 1024
    strict_mode := true }

/-- `BatchValidator::validate_block_in_batch`. -/
def validate_block_in_batch (block : BlockInBatch) (expected_index : Nat) :
    Except IngestError Unit :=
  if block.batch_index ≠ expected_index then
    .error (.InvalidBatchData (.indexMismatch expected_index block.batch_index))
  else if block.number = 0 then
    .error (.InvalidBatchData .blockNumberZero)
  else if block.hash = 0 then
    .error (.InvalidBatchData .blockHashZero)
  else if block.parent_hash = 0 ∧ block.number ≠ 1 then
    .error (.InvalidBatchData .parentHashZero)
  else if block.state_root = 0 then
    .error (.InvalidBatchData .stateRootZero)
  else if block.receipt_root = 0 then
    .error (.InvalidBatchData .receiptRootZero)
  else if block.tx_root = 0 then
    .error (.InvalidBatchData .txRootZero)
  else if block.timestamp = 0 then
    .error (.InvalidBatchData .timestampZero)
  else
    .ok ()

/-- The `for (index, block) in batch.blocks.iter().enumerate()` loop of
`validate_batch`, with `?` on each `validate_block_in_batch` call. -/
def validate_blocks_from (blocks : List BlockInBatch) (index : Nat) :
    Except IngestError Unit :=
  match blocks with
  | [] => .ok ()
  | b :: rest =>
      match validate_block_in_batch b index with
      | .error e => .error e
      | .ok _ => validate_blocks_from rest (index + 1)

/-- The loop body of `validate_block_ordering` starting from the running
`prev_block_number` / `prev_timestamp`. -/
def validate_ordering_from (strict : Bool) (prev_number prev_timestamp : Nat)
    (blocks : List BlockInBatch) : Except IngestError Unit :=
  match blocks with
  | [] => .ok ()
  | b :: rest =>
      if b.number ≤ prev_number then
        .error (.InvalidBatchData (.numbersNotInOrder b.number prev_number))
      else if b.timestamp < prev_timestamp ∧ strict = true then
        .error (.InvalidBatchData (.timestampsNotInOrder b.timestamp prev_timestamp))
      else
        validate_ordering_from strict b.number b.timestamp rest

/-- `BatchValidator::validate_block_ordering` (a decreasing timestamp is
only logged as a warning unless `strict_mode`). -/
def validate_block_ordering (v : BatchValidator) (blocks : List BlockInBatch) :
    Except IngestError Unit :=
  match blocks with
  | [] => .ok ()
  | b :: rest => validate_ordering_from v.strict_mode b.number b.timestamp rest

/-- `BatchValidator::estimate_batch_size`: 32 + 32 + 8 bytes of batch
metadata, the `data_proof` length, then per block
32×5 roots/hashes + 8 + 8 + 4. -/
def estimate_batch_size (batch : Batch) : Nat :=
  let size := 0 + 32 + 32 + 8 + batch.proof_meta.data_proof.length
  batch.blocks.foldl (fun s _ => s + 32 + 32 + 32 + 32 + 32 + 8 + 8 + 4) size

/-- `BatchValidator::validate_batch`: id/origin checks, block-count check,
size check, per-block checks, and — only in strict mode — the block
ordering check. -/
def validate_batch (v : BatchValidator) (batch : Batch) : Except IngestError Unit :=
  if batch.id.number = 0 then
    .error (.InvalidBatchData .batchIdZero)
  else if batch.l1_origin = 0 then
    .error (.InvalidBatchData .l1OriginZero)
  else if batch.blocks.length > v.max_blocks_per_batch then
    .error (.InvalidBatchData (.tooManyBlocks batch.blocks.length v.max_blocks_per_batch))
  else if estimate_batch_size batch > v.max_batch_size_bytes then
    .error (.InvalidBatchData (.batchTooLarge (estimate_batch_size batch) v.max_batch_size_bytes))
  else
    match validate_blocks_from batch.blocks 0 with
    | .error e => .error e
    | .ok _ => if v.strict_mode then validate_block_ordering v batch.blocks else .ok ()

/-! ### `cdk-datastream/src/checkpoint.rs` and `http_source.rs` -/

/-- `Checkpoint` (`metadata` map as an association list). -/
structure Checkpoint where
  last_batch_id : Nat
  last_batch_hash : Nat
  last_l1_block : Nat
  timestamp : Nat
  metadata : List (String × String)
  deriving Repr, DecidableEq

/-- `Checkpoint::from_batch`. -/
def Checkpoint.from_batch (batch : Batch) (timestamp : Nat) : Checkpoint :=
  { last_batch_id := batch.id.number
    last_batch_hash := batch.id.hash
    last_l1_block := batch.l1_origin
    timestamp := timestamp
    metadata := [] }

/-- The `from` query parameter `HttpBatchSource::next` sends:
`checkpoint.last_batch_id + 1` when a checkpoint exists. -/
def http_request_from (cp : Option Checkpoint) : Option Nat :=
  cp.map (fun c => c.last_batch_id + 1)

/-- `HttpBatchSource::next`, with the transport's response passed in as an
oracle (the list of batches the server returned for the request) and the
wall clock as `now`. Returns the new `current_checkpoint` and the yielded
batch: the head of the response, taken without any validation. -/
def http_next (cp : Option Checkpoint) (response : List Batch) (now : Nat) :
    Option Checkpoint × Option Batch :=
  match response with
  | [] => (cp, none)
  | batch :: _ => (some (Checkpoint.from_batch batch now), some batch)

/-! ### `cdk-binaries/src/common.rs` -/

/-- `retry_delay`: exponential backoff, `Duration` modelled in seconds.
`2_u32.pow(attempt.min(6)) ≤ 64` never overflows `u32`. -/
def retry_delay (attempt : Nat) : Nat :=
  let base_delay := 1
  let max_delay := 60
  let delay := base_delay * 2 ^ (min attempt 6)
  min delay max_delay

/-! ### `cdk-ingest/src/mapping.rs` -/

/-- `BatchMapping`. -/
structure BatchMapping where
  batch_id : Nat
  batch_hash : Nat
  start_block : Nat
  end_block : Nat
  block_count : Nat
  epoch_id : Nat
  timestamp : Nat
  deriving Repr, DecidableEq

/-- `EpochMapping`. -/
structure EpochMapping where
  epoch_id : Nat
  epoch_hash : Nat
  start_block : Nat
  end_block : Nat
  block_count : Nat
  batch_count : Nat
  timestamp : Nat
  deriving Repr, DecidableEq

/-- Checked `u64` subtraction: `none` models the debug-build panic on
underflow. -/
def checkedSubU64 (a b : Nat) : Option Nat :=
  if b ≤ a then some (a - b) else none

/-- Checked `u64` addition: `none` models the debug-build panic on
overflow past `2^64 - 1`. -/
def checkedAddU64 (a b : Nat) : Option Nat :=
  if a + b < 2 ^ 64 then some (a + b) else none

/-- `MappingManager::create_batch_mapping` with the wall clock passed as
`now`. `block_count = (end_block - start_block + 1) as u32`: the `u64`
subtraction and the `+ 1` are checked, the `as u32` cast truncates. -/
def create_batch_mapping (batch_id batch_hash start_block end_block epoch_id now : Nat) :
    Option BatchMapping :=
  match checkedSubU64 end_block start_block with
  | none => none
  | some d =>
    match checkedAddU64 d 1 with
    | none => none
    | some c =>
        some
          { batch_id := batch_id
            batch_hash := batch_hash
            start_block := start_block
            end_block := end_block
            block_count := c % 2 ^ 32
            epoch_id := epoch_id
            timestamp := now }

/-- `MappingManager::create_epoch_mapping`, same `block_count`
computation. -/
def create_epoch_mapping (epoch_id epoch_hash start_block end_block batch_count now : Nat) :
    Option EpochMapping :=
  match checkedSubU64 end_block start_block with
  | none => none
  | some d =>
    match checkedAddU64 d 1 with
    | none => none
    | some c =>
        some
          { epoch_id := epoch_id
            epoch_hash := epoch_hash
            start_block := start_block
            end_block := end_block
            block_count := c % 2 ^ 32
            batch_count := batch_count
            timestamp := now }

/-! ### Concrete fixtures used by the claim-level theorems -/

/-- Rollback configuration with `required_confirmations = 3`. -/
def cfgReq3 : RollbackConfig :=
  { required_confirmations := 3
    max_rollback_depth := 1000
    rollback_timeout := 3600
    auto_execute := true
    validate_rollbacks := true }

/-- `RolledBack` oracle event for batch 3. -/
def updRolledBack3 : FinalityUpdate :=
  { tag := { batch_id := 3, l1_block := 100, l1_block_hash := 7,
             status := .RolledBack, timestamp := 50, tx_hash := none }
    event_type := .RolledBack
    l1_block_number := 100
    tx_hash := none
    detected_at := 50 }

/-- Rollback configuration with `max_rollback_depth = 0` and a single
required confirmation. -/
def cfgDepth0 : RollbackConfig :=
  { required_confirmations := 1
    max_rollback_depth := 0
    rollback_timeout := 3600
    auto_execute := true
    validate_rollbacks := true }

/-- `RolledBack` oracle event for batch 1. -/
def updRolledBack1 : FinalityUpdate :=
  { tag := { batch_id := 1, l1_block := 100, l1_block_hash := 7,
             status := .RolledBack, timestamp := 50, tx_hash := none }
    event_type := .RolledBack
    l1_block_number := 100
    tx_hash := none
    detected_at := 50 }

/-- `Finalized` oracle event for batch 7. -/
def updFinalized7 : FinalityUpdate :=
  { tag := { batch_id := 7, l1_block := 100, l1_block_hash := 7,
             status := .Finalized, timestamp := 50, tx_hash := none }
    event_type := .Finalized
    l1_block_number := 100
    tx_hash := none
    detected_at := 50 }

/-- `RolledBack` oracle event for batch 7, arriving after finalization. -/
def updRolledBack7 : FinalityUpdate :=
  { tag := { batch_id := 7, l1_block := 101, l1_block_hash := 8,
             status := .RolledBack, timestamp := 51, tx_hash := none }
    event_type := .RolledBack
    l1_block_number := 101
    tx_hash := none
    detected_at := 51 }

/-- A manager state whose rollback history already holds batch 7. -/
def historyState7 : RollbackState :=
  { rollback_history :=
      [(7, { batch_id := 7, batch_hash := 8, l1_block_number := 101,
             tx_hash := none, timestamp := 51, reason := "L1 finality rollback",
             affected_blocks := [700, 701, 702] })]
    pending_rollbacks := []
    config := RollbackConfig.default }

/-- A manager state with a pending rollback for batch 3 (one
confirmation gathered). -/
def pendingState3 : RollbackState :=
  { rollback_history := []
    pending_rollbacks :=
      [(3, { batch_id := 3, batch_hash := 7, l1_block_number := 100,
             tx_hash := none, timestamp := 50, confirmations := 1,
             required_confirmations := 12 })]
    config := RollbackConfig.default }

/-- `Finalized` oracle event for batch 3. -/
def updFinalized3 : FinalityUpdate :=
  { tag := { batch_id := 3, l1_block := 102, l1_block_hash := 9,
             status := .Finalized, timestamp := 52, tx_hash := none }
    event_type := .Finalized
    l1_block_number := 102
    tx_hash := none
    detected_at := 52 }

/-- Finality tag for batch 5 with status `RolledBack`. -/
def tagRolledBack5 : FinalityTag :=
  { batch_id := 5, l1_block := 100, l1_block_hash := 1,
    status := .RolledBack, timestamp := 60, tx_hash := none }

/-- Finality tag for batch 5 with status `Finalized`. -/
def tagFinalized5 : FinalityTag :=
  { batch_id := 5, l1_block := 100, l1_block_hash := 1,
    status := .Finalized, timestamp := 60, tx_hash := none }

/-- Finality tag for batch 5 with status `Pending`. -/
def tagPending5 : FinalityTag :=
  { batch_id := 5, l1_block := 100, l1_block_hash := 1,
    status := .Pending, timestamp := 60, tx_hash := none }

/-- Empty proof metadata. -/
def proofMetaEmpty : ProofMetadata :=
  { data_proof := [], namespace_id := 0, commitment := 0, inclusion_proof := [] }

/-- A structurally valid block: index 0, number 2. -/
def blockN2 : BlockInBatch :=
  { batch_index := 0, hash := 1, number := 2, parent_hash := 1,
    state_root := 1, tx_root := 1, receipt_root := 1, timestamp := 10 }

/-- A structurally valid block: index 1, number 1 (out of order after
`blockN2`). -/
def blockN1 : BlockInBatch :=
  { batch_index := 1, hash := 1, number := 1, parent_hash := 1,
    state_root := 1, tx_root := 1, receipt_root := 1, timestamp := 10 }

/-- A valid one-block batch with empty proof data. -/
def batchOneBlock : Batch :=
  { id := { number := 1, hash := 1 }, l1_origin := 1, l1_origin_hash := 1,
    blocks := [blockN2], proof_meta := proofMetaEmpty, timestamp := 1 }

/-- A batch whose two blocks have strictly decreasing block numbers. -/
def batchDecreasing : Batch :=
  { id := { number := 1, hash := 1 }, l1_origin := 1, l1_origin_hash := 1,
    blocks := [blockN2, blockN1], proof_meta := proofMetaEmpty, timestamp := 1 }

/-- The default validator with strict mode turned off. -/
def validatorNonStrict : BatchValidator :=
  { max_blocks_per_batch := 1000
    max_batch_size_bytes := 10 * 1024 * 1024
    strict_mode := false }

/-- A validator whose byte limit (100) is below any one-block batch's
estimate. -/
def validatorTinyMax : BatchValidator :=
  { max_blocks_per_batch := 1000
    max_batch_size_bytes := 100
    strict_mode := true }

/-- An empty batch numbered 5. -/
def bat5 : Batch :=
  { id := { number := 5, hash := 5 }, l1_origin := 10, l1_origin_hash := 1,
    blocks := [], proof_meta := proofMetaEmpty, timestamp := 1 }

/-- An empty batch numbered 2. -/
def bat2 : Batch :=
  { id := { number := 2, hash := 2 }, l1_origin := 11, l1_origin_hash := 1,
    blocks := [], proof_meta := proofMetaEmpty, timestamp := 1 }

/-- An empty batch numbered 6. -/
def bat6 : Batch :=
  { id := { number := 6, hash := 6 }, l1_origin := 12, l1_origin_hash := 1,
    blocks := [], proof_meta := proofMetaEmpty, timestamp := 1 }

/-- The checkpoint recorded after `bat5`. -/
def cp5 : Checkpoint := Checkpoint.from_batch bat5 100

/-- The batch mapping `create_batch_mapping 1 2 100 200 1 9` produces. -/
def bm100 : BatchMapping :=
  { batch_id := 1, batch_hash := 2, start_block := 100, end_block := 200,
    block_count := 101, epoch_id := 1, timestamp := 9 }

/-! ## Helper lemmas -/

/-- Removing a key from an association list makes lookup at that key fail. -/
theorem lookupA_eraseA {α : Type} (l : List (Nat × α)) (k : Nat) :
    lookupA (eraseA k l) k = none := by
  induction l with
  | nil => rfl
  | cons p rest ih =>
      by_cases h : p.1 = k
      · simpa [eraseA, List.filter, h] using ih
      · simpa [eraseA, List.filter, h, lookupA] using ih

/-- The per-block size fold adds 180 bytes per block. -/
theorem foldl_block_size (l : List BlockInBatch) (s : Nat) :
    l.foldl (fun s _ => s + 32 + 32 + 32 + 32 + 32 + 8 + 8 + 4) s
      = s + 180 * l.length := by
  induction l generalizing s with
  | nil => simp
  | cons x xs ih =>
      rw [List.foldl_cons, ih]
      simp [List.length_cons]
      omega

/-- `estimate_batch_size` in closed form: 180 bytes per block, plus the
proof-metadata length, plus a 72-byte batch header. -/
theorem estimate_batch_size_eq (b : Batch) :
    estimate_batch_size b
      = 180 * b.blocks.length + b.proof_meta.data_proof.length + 72 := by
  unfold estimate_batch_size
  rw [foldl_block_size]
  omega

/-- `validate_block_in_batch` never produces the batch-size error. -/
theorem validate_block_in_batch_ne_size (blk : BlockInBatch) (i a c : Nat) :
    validate_block_in_batch blk i
      ≠ .error (.InvalidBatchData (.batchTooLarge a c)) := by
  unfold validate_block_in_batch
  split_ifs <;> simp

/-- The per-block validation loop never produces the batch-size error. -/
theorem validate_blocks_from_ne_size (blocks : List BlockInBatch) (i a c : Nat) :
    validate_blocks_from blocks i
      ≠ .error (.InvalidBatchData (.batchTooLarge a c)) := by
  induction blocks generalizing i with
  | nil => simp [validate_blocks_from]
  | cons b rest ih =>
      unfold validate_blocks_from
      cases hv : validate_block_in_batch b i with
      | error e =>
          intro h
          simp only at h
          exact validate_block_in_batch_ne_size b i a c (by rw [hv, h])
      | ok u => simpa using ih (i + 1)

/-- The ordering loop never produces the batch-size error. -/
theorem validate_ordering_from_ne_size (strict : Bool)
    (pn pt : Nat) (blocks : List BlockInBatch) (a c : Nat) :
    validate_ordering_from strict pn pt blocks
      ≠ .error (.InvalidBatchData (.batchTooLarge a c)) := by
  induction blocks generalizing pn pt with
  | nil => simp [validate_ordering_from]
  | cons b rest ih =>
      unfold validate_ordering_from
      split_ifs <;> simp [ih]

/-- Successful checked subtraction means no underflow and the exact
difference. -/
theorem checkedSubU64_eq_some {a b d : Nat} (h : checkedSubU64 a b = some d) :
    b ≤ a ∧ d = a - b := by
  by_cases hba : b ≤ a
  · unfold checkedSubU64 at h
    rw [if_pos hba] at h
    injection h with h'
    exact ⟨hba, h'.symm⟩
  · unfold checkedSubU64 at h
    rw [if_neg hba] at h
    exact Option.noConfusion h

/-- Successful checked addition means the exact sum. -/
theorem checkedAddU64_eq_some {a b c : Nat} (h : checkedAddU64 a b = some c) :
    c = a + b := by
  by_cases hab : a + b < 2 ^ 64
  · unfold checkedAddU64 at h
    rw [if_pos hab] at h
    injection h with h'
    exact h'.symm
  · unfold checkedAddU64 at h
    rw [if_neg hab] at h
    exact Option.noConfusion h

/-- `validate_block_ordering` never produces the batch-size error. -/
theorem validate_block_ordering_ne_size (v : BatchValidator)
    (blocks : List BlockInBatch) (a c : Nat) :
    validate_block_ordering v blocks
      ≠ .error (.InvalidBatchData (.batchTooLarge a c)) := by
  cases blocks with
  | nil => simp [validate_block_ordering]
  | cons b rest => exact validate_ordering_from_ne_size _ _ _ _ _ _

/-! ## Claim-level theorems -/

/-- C1: with `required_confirmations = 3` and `auto_execute` on, delivering
the `RolledBack` event for batch 3 on three consecutive poll ticks does NOT
execute the rollback: `handle_rollback` re-inserts a fresh pending entry
with `confirmations = 0` on every delivery before bumping it once, so each
tick returns `PendingRollback(3)`, the pending entry's confirmation count
is stuck at 1 after the third tick, and the rollback history stays empty —
no `ExecuteRollback` is ever emitted. -/
theorem C1_confirmations_reset_on_each_delivery :
    (process_updates (RollbackManager.new cfgReq3)
        [updRolledBack3, updRolledBack3, updRolledBack3]).2
      = [.ok [RollbackAction.PendingRollback 3],
         .ok [RollbackAction.PendingRollback 3],
         .ok [RollbackAction.PendingRollback 3]]
  ∧ (lookupA (process_updates (RollbackManager.new cfgReq3)
        [updRolledBack3, updRolledBack3, updRolledBack3]).1.pending_rollbacks 3).map
      (fun p => p.confirmations) = some 1
  ∧ (process_updates (RollbackManager.new cfgReq3)
        [updRolledBack3, updRolledBack3, updRolledBack3]).1.rollback_history = [] := by
  decide

/-- C2: with `max_rollback_depth = 0`, a rollback whose computed affected
set has 3 blocks (exceeding the depth limit) is still executed: the
manager emits `ExecuteRollback(1)` and records the batch in the rollback
history instead of raising `RollbackError` — `execute_rollback` performs
no depth check at all. -/
theorem C2_execute_rollback_ignores_max_depth :
    (process_finality_update (RollbackManager.new cfgDepth0) updRolledBack1).2
      = .ok [RollbackAction.ExecuteRollback 1]
  ∧ (lookupA (process_finality_update (RollbackManager.new cfgDepth0)
        updRolledBack1).1.rollback_history 1).map
      (fun r => r.affected_blocks.length) = some 3
  ∧ cfgDepth0.max_rollback_depth < 3 := by
  decide

/-- C3 counterexample: after a `Finalized` update for batch 7, a later
`RolledBack` update for the same batch is NOT ignored — it creates a new
pending rollback entry and returns the `PendingRollback(7)` action,
because the manager keeps no record of finalized batches. -/
theorem C3_rolledback_after_finalized_not_ignored :
    (process_updates (RollbackManager.new RollbackConfig.default)
        [updFinalized7, updRolledBack7]).2
      = [.ok [RollbackAction.Finalized 7], .ok [RollbackAction.PendingRollback 7]]
  ∧ (lookupA (process_updates (RollbackManager.new RollbackConfig.default)
        [updFinalized7, updRolledBack7]).1.pending_rollbacks 7).isSome = true := by
  decide

/-- C3 (amended): a later `RolledBack` update is ignored exactly for
batches already in the executed rollback history: if the batch is in
`rollback_history`, processing the update returns no actions and leaves
the state unchanged. (Finalization leaves no record, so it confers no
such immunity.) -/
theorem C3_rolledback_ignored_for_executed_history
    (s : RollbackState) (u : FinalityUpdate)
    (he : u.event_type = FinalityEventType.RolledBack)
    (hh : containsA s.rollback_history u.tag.batch_id = true) :
    process_finality_update s u = (s, .ok []) := by
  unfold process_finality_update
  rw [he]
  unfold handle_rollback
  simp [hh]

/-- C3 witness: a `RolledBack` update for batch 7 against a state whose
rollback history already holds batch 7 is ignored. -/
theorem C3_witness :
    process_finality_update historyState7 updRolledBack7 = (historyState7, .ok []) :=
  C3_rolledback_ignored_for_executed_history historyState7 updRolledBack7
    (by decide) (by decide)

/-- C4: `process_finality_tag` dispatch — a `Finalized` tag calls
`mark_final`, but a `RolledBack` tag performs NO engine call (the source
is a TODO stub returning `blocks_affected = 0`; `rollback_to` is never
invoked), and a `Pending` tag performs no action. -/
theorem C4_finality_tag_dispatch_stub :
    process_finality_tag tagFinalized5
      = (mark_final 5, [EngineCall.markFinal 5])
  ∧ process_finality_tag tagRolledBack5
      = ({ final_block := 5, blocks_affected := 0 }, [])
  ∧ process_finality_tag tagPending5
      = ({ final_block := 5, blocks_affected := 0 }, []) := by
  decide

/-- C5: a `Finalized` finality update for a batch with a pending (not yet
executed) rollback entry deletes that pending entry and returns exactly
the `Finalized(batch_id)` action — in particular no `ExecuteRollback` is
produced from the superseded entry. -/
theorem C5_finalized_supersedes_pending_rollback
    (s : RollbackState) (u : FinalityUpdate)
    (he : u.event_type = FinalityEventType.Finalized)
    (hp : containsA s.pending_rollbacks u.tag.batch_id = true) :
    lookupA (process_finality_update s u).1.pending_rollbacks u.tag.batch_id = none
  ∧ (process_finality_update s u).2 = .ok [RollbackAction.Finalized u.tag.batch_id] := by
  unfold process_finality_update
  rw [he]
  unfold handle_finalization
  exact ⟨lookupA_eraseA s.pending_rollbacks u.tag.batch_id, rfl⟩

/-- C5 witness: finalizing batch 3 while its rollback is pending with one
confirmation removes the pending entry and yields `Finalized(3)`. -/
theorem C5_witness :
    lookupA (process_finality_update pendingState3 updFinalized3).1.pending_rollbacks 3 = none
  ∧ (process_finality_update pendingState3 updFinalized3).2
      = .ok [RollbackAction.Finalized 3] :=
  C5_finalized_supersedes_pending_rollback pendingState3 updFinalized3
    (by decide) (by decide)

/-- C6 counterexample: `HttpBatchSource::next` yields the head of the
transport's response without validation, so when the transport returns
batch 5 and then batch 2, two consecutive successful `next()` results are
5 followed by 2 — the stream is not monotonic for an arbitrary transport. -/
theorem C6_next_not_monotonic_for_arbitrary_transport :
    (http_next none [bat5] 100).2 = some bat5
  ∧ (http_next (http_next none [bat5] 100).1 [bat2] 101).2 = some bat2
  ∧ ¬ bat5.id.number < bat2.id.number := by
  decide

/-- C6 (amended): successful `next()` results are strictly increasing in
`BatchId.number` only under the assumption that the transport honors the
request parameter (`http_request_from` = `last_batch_id + 1`): if every
batch in the response has number ≥ `last_batch_id + 1`, the yielded batch
exceeds the checkpoint and the new checkpoint records its number, so
consecutive successful results are strictly monotonic. -/
theorem C6_next_monotonic_under_conformant_transport
    (cp : Checkpoint) (rs : List Batch) (now : Nat) (b : Batch)
    (hconf : ∀ x ∈ rs, cp.last_batch_id + 1 ≤ x.id.number)
    (hb : (http_next (some cp) rs now).2 = some b) :
    cp.last_batch_id < b.id.number
  ∧ (http_next (some cp) rs now).1 = some (Checkpoint.from_batch b now) := by
  cases rs with
  | nil => simp [http_next] at hb
  | cons x rest =>
      simp only [http_next] at hb
      injection hb with h
      subst h
      exact ⟨hconf x (List.mem_cons_self x rest), rfl⟩

/-- C6 witness: from the checkpoint left by batch 5, a conformant response
containing batch 6 yields a batch above the checkpoint and advances the
checkpoint to 6. -/
theorem C6_witness :
    cp5.last_batch_id < bat6.id.number
  ∧ (http_next (some cp5) [bat6] 100).1 = some (Checkpoint.from_batch bat6 100) :=
  C6_next_monotonic_under_conformant_transport cp5 [bat6] 100 bat6
    (by decide) (by decide)

/-- C7 counterexample: on a one-block batch with empty proof metadata the
code computes an estimate of 252 bytes = 180 per block + 72 header, while
the claimed formula (176 per block + proof length + 72 header) gives 248. -/
theorem C7_per_block_estimate_is_180_not_176 :
    estimate_batch_size batchOneBlock = 252
  ∧ 176 * batchOneBlock.blocks.length
      + batchOneBlock.proof_meta.data_proof.length + 72 = 248
  ∧ (252 : Nat) ≠ 248 := by
  decide

/-- C7 (amended): `validate_batch` computes the estimated batch size as
exactly 180 bytes per block plus the proof-metadata length plus a 72-byte
batch header, and (when the id, origin and block-count checks pass)
rejects with the `InvalidBatchData` size error exactly when this estimate
exceeds `max_batch_size_bytes` (default 10 MiB). -/
theorem C7_size_estimate_and_rejection
    (v : BatchValidator) (b : Batch)
    (h1 : b.id.number ≠ 0) (h2 : b.l1_origin ≠ 0)
    (h3 : b.blocks.length ≤ v.max_blocks_per_batch) :
    estimate_batch_size b
      = 180 * b.blocks.length + b.proof_meta.data_proof.length + 72
  ∧ (validate_batch v b
        = .error (.InvalidBatchData
            (.batchTooLarge (estimate_batch_size b) v.max_batch_size_bytes))
      ↔ v.max_batch_size_bytes < estimate_batch_size b) := by
  refine ⟨estimate_batch_size_eq b, ?_, ?_⟩
  · intro h
    by_contra hle
    push_neg at hle
    unfold validate_batch at h
    rw [if_neg h1, if_neg h2, if_neg (by omega), if_neg (by omega)] at h
    cases hvb : validate_blocks_from b.blocks 0 with
    | error e =>
        rw [hvb] at h
        simp only at h
        exact validate_blocks_from_ne_size b.blocks 0 _ _ (by rw [hvb, h])
    | ok u =>
        rw [hvb] at h
        simp only at h
        by_cases hs : v.strict_mode = true
        · rw [if_pos hs] at h
          exact validate_block_ordering_ne_size v b.blocks _ _ h
        · rw [if_neg hs] at h
          exact Except.noConfusion h
  · intro h
    unfold validate_batch
    rw [if_neg h1, if_neg h2, if_neg (by omega), if_pos (by omega)]

/-- C7 witness: the one-block batch against a validator with a 100-byte
limit — the estimate is 252 = 180·1 + 0 + 72, and the size rejection
fires exactly because 100 < 252. -/
theorem C7_witness :
    estimate_batch_size batchOneBlock
      = 180 * batchOneBlock.blocks.length
          + batchOneBlock.proof_meta.data_proof.length + 72
  ∧ (validate_batch validatorTinyMax batchOneBlock
        = .error (.InvalidBatchData
            (.batchTooLarge (estimate_batch_size batchOneBlock)
              validatorTinyMax.max_batch_size_bytes))
      ↔ validatorTinyMax.max_batch_size_bytes < estimate_batch_size batchOneBlock) :=
  C7_size_estimate_and_rejection validatorTinyMax batchOneBlock
    (by decide) (by decide) (by decide)

/-- C8: with strict mode off, `validate_batch` never calls
`validate_block_ordering`, so a batch whose block numbers strictly
decrease (2 then 1) is accepted; the same batch is rejected with the
`InvalidBatchData` ordering error only when strict mode is on. -/
theorem C8_nonstrict_mode_skips_ordering_checks :
    validate_batch validatorNonStrict batchDecreasing = .ok ()
  ∧ validate_batch BatchValidator.default batchDecreasing
      = .error (.InvalidBatchData (.numbersNotInOrder 1 2)) := by
  decide

/-- C9: the retry backoff equals `min(60 s, 2^min(k,6) s)` for every
attempt count, and in particular `retry_delay 10 = 60`. -/
theorem C9_retry_delay_formula :
    (∀ k : Nat, retry_delay k = min 60 (2 ^ min k 6)) ∧ retry_delay 10 = 60 := by
  constructor
  · intro k
    unfold retry_delay
    simp [Nat.min_comm]
  · decide

/-- C10: `create_batch_mapping` and `create_epoch_mapping` require
`start_block ≤ end_block`: when `end_block < start_block` the `u64`
subtraction underflows (modelled `none`, a panic in checked builds), and
whenever they succeed the stored `block_count` is
`(end_block − start_block + 1)` truncated to `u32`. -/
theorem C10_mapping_block_count_requires_ordered_range
    (bi bh sb eb eid eh bc now : Nat) :
    (eb < sb →
        create_batch_mapping bi bh sb eb eid now = none
      ∧ create_epoch_mapping eid eh sb eb bc now = none)
  ∧ (∀ m, create_batch_mapping bi bh sb eb eid now = some m →
        sb ≤ eb ∧ m.block_count = (eb - sb + 1) % 2 ^ 32)
  ∧ (∀ m, create_epoch_mapping eid eh sb eb bc now = some m →
        sb ≤ eb ∧ m.block_count = (eb - sb + 1) % 2 ^ 32) := by
  refine ⟨?_, ?_, ?_⟩
  · intro hlt
    unfold create_batch_mapping create_epoch_mapping checkedSubU64
    rw [if_neg (by omega)]
    exact ⟨rfl, rfl⟩
  · intro m hm
    unfold create_batch_mapping at hm
    split at hm
    · exact Option.noConfusion hm
    · rename_i d hsub
      split at hm
      · exact Option.noConfusion hm
      · rename_i c hadd
        obtain ⟨hle, hd⟩ := checkedSubU64_eq_some hsub
        have hc := checkedAddU64_eq_some hadd
        injection hm with hm'
        subst hm'
        exact ⟨hle, by simp [hc, hd]⟩
  · intro m hm
    unfold create_epoch_mapping at hm
    split at hm
    · exact Option.noConfusion hm
    · rename_i d hsub
      split at hm
      · exact Option.noConfusion hm
      · rename_i c hadd
        obtain ⟨hle, hd⟩ := checkedSubU64_eq_some hsub
        have hc := checkedAddU64_eq_some hadd
        injection hm with hm'
        subst hm'
        exact ⟨hle, by simp [hc, hd]⟩

/-- C10 witness: `end_block = 3 < 5 = start_block` makes both
constructors underflow, while the range `[100, 200]` yields `bm100` with
`block_count = 101 = (200 − 100 + 1) % 2^32`. -/
theorem C10_witness :
    (create_batch_mapping 1 2 5 3 1 9 = none
      ∧ create_epoch_mapping 1 7 5 3 4 9 = none)
  ∧ (100 ≤ 200 ∧ bm100.block_count = (200 - 100 + 1) % 2 ^ 32) :=
  ⟨(C10_mapping_block_count_requires_ordered_range 1 2 5 3 1 7 4 9).1 (by decide),
   (C10_mapping_block_count_requires_ordered_range 1 2 100 200 1 7 4 9).2.1 bm100
     (by decide)⟩

end RethCdk
